import Mathlib

/-!
Verification of the compatibility-switch evaluator and grid-scanning engine
of the `lcdm-mcmc` repository (files `besemer_core.py`, `scanner.py`,
`hubble_dipole.py`).

Shallow embedding conventions:
* Python/numpy floating-point scalars are modelled as elements of a linear
  ordered field `K` (instantiated at `ℚ` for the algebraic core, and at `ℝ`
  where `np.sqrt` enters the computation).
* numpy 1-D arrays are modelled as `List K`; 2-D arrays as `List (List K)`
  (list of rows, row-major as in numpy's C order).
* Fallible computations (numpy broadcast errors, Python exceptions) are
  modelled with `Except String`; a raised exception aborts the computation
  exactly where the Python exception would propagate.
-/

namespace LcdmMcmc

variable {K : Type} [LinearOrderedField K]

/-- Embedding of the `BesemerSwitch` class of `besemer_core.py`:
the configuration triple `(beta, threshold, epsilon)` set in `__init__`
(defaults in the source: `beta=296`, `threshold=1.0`, `epsilon=1e-10`). -/
structure BesemerSwitch (K : Type) where
  beta : K
  threshold : K
  epsilon : K

/-- `BesemerSwitch.resonance_strength` (besemer_core.py, lines 48-54):
`residual_safe = np.maximum(residual, self.epsilon); return self.beta / residual_safe`. -/
def BesemerSwitch.resonance_strength (sw : BesemerSwitch K) (residual : K) : K :=
  sw.beta / max residual sw.epsilon

/-- `BesemerSwitch.__call__` (besemer_core.py, lines 29-46):
`residual_safe = np.maximum(residual, self.epsilon);
 amplified = self.beta / residual_safe;
 return np.where(amplified >= self.threshold, 1, 0)`. -/
def BesemerSwitch.call (sw : BesemerSwitch K) (residual : K) : K :=
  if sw.beta / max residual sw.epsilon ≥ sw.threshold then 1 else 0

/-- `heaviside` (besemer_core.py, lines 57-65): `np.where(x >= 0, 1, 0)`. -/
def heaviside (x : K) : K :=
  if x ≥ 0 then 1 else 0

/-- Error message produced when two 1-D arrays cannot be broadcast. -/
def broadcastError : String := "operands could not be broadcast together"

/-- numpy's elementwise binary operation on two 1-D arrays, including its
broadcasting rule: equal lengths operate elementwise; a length-1 operand
is stretched against the other; any other length mismatch raises. -/
def broadcast₂ {K : Type} [Inhabited K] (op : K → K → K) (a b : List K) :
    Except String (List K) :=
  if a.length = b.length then .ok (List.zipWith op a b)
  else if b.length = 1 then .ok (a.map (fun x => op x (b.headD default)))
  else if a.length = 1 then .ok (b.map (fun y => op (a.headD default) y))
  else .error broadcastError

/-- `compute_chi_squared` (besemer_core.py, lines 68-85):
`residual = data - model; if errors is not None: residual = residual / errors;
 return np.sum(residual**2)`. -/
def compute_chi_squared [Inhabited K] (data model : List K)
    (errors : Option (List K)) : Except String K :=
  match broadcast₂ (· - ·) data model with
  | .error e => .error e
  | .ok residual =>
      match errors with
      | none => .ok ((residual.map (fun x => x ^ 2)).sum)
      | some errs =>
          match broadcast₂ (· / ·) residual errs with
          | .error e => .error e
          | .ok residual => .ok ((residual.map (fun x => x ^ 2)).sum)

/-- `compute_residual_norm` (besemer_core.py, lines 88-106): identical to
`compute_chi_squared` followed by `np.sqrt` (the L2 norm of the residual). -/
noncomputable def compute_residual_norm (data model : List ℚ)
    (errors : Option (List ℚ)) : Except String ℝ :=
  (compute_chi_squared data model errors).map (fun q => Real.sqrt (q : ℝ))

/-- `np.linspace(lo, hi, n)`: `n` evenly spaced values over the closed
interval `[lo, hi]` (endpoints included; a single point degenerates to
`[lo]`, matching numpy). -/
def linspace (lo hi : ℚ) (n : ℕ) : List ℚ :=
  List.map (fun (i : ℕ) => lo + (hi - lo) * (i : ℚ) / ((n : ℚ) - 1)) (List.range n)

/-- The body of the scan loops in `scanner.py` (lines 56-60 and 87-92) for
one grid point: call the model function, compute the residual norm, and
apply the switch; returns the pair (switch value, resonance strength).
`α` is the parameter type — `ℚ` for `scan_1d`, `ℚ × ℚ` for `scan_2d`. -/
noncomputable def pointEval {α : Type} (sw : BesemerSwitch ℝ) (data : List ℚ)
    (errors : Option (List ℚ)) (f : α → Except String (List ℚ)) (p : α) :
    Except String (ℝ × ℝ) :=
  match f p with
  | .error e => .error e
  | .ok model =>
      match compute_residual_norm data model errors with
      | .error e => .error e
      | .ok residual => .ok (sw.call residual, sw.resonance_strength residual)

/-- The sequential point loop of `scan_1d` (and the inner `j` loop of
`scan_2d`): points are evaluated in list order; the first exception aborts
the whole loop, so later points are never evaluated. -/
noncomputable def scanPoints {α : Type} (sw : BesemerSwitch ℝ) (data : List ℚ)
    (errors : Option (List ℚ)) (f : α → Except String (List ℚ)) :
    List α → Except String (List (ℝ × ℝ))
  | [] => .ok []
  | p :: ps =>
      match pointEval sw data errors f p with
      | .error e => .error e
      | .ok v =>
          match scanPoints sw data errors f ps with
          | .error e => .error e
          | .ok rest => .ok (v :: rest)

/-- `LatencyFreeScanner.scan_1d` (scanner.py, lines 40-62): builds the
linspace grid, evaluates every grid point in order, and returns the three
parallel sequences `(params, switches, resonances)`.  `scan_1d` never
touches the scanner's cached state (`self.grid_points` etc. are only
assigned by `scan_2d`), so no state parameter appears here. -/
noncomputable def scan_1d (sw : BesemerSwitch ℝ) (data : List ℚ)
    (errors : Option (List ℚ)) (model_func : ℚ → Except String (List ℚ))
    (param_range : ℚ × ℚ) (n_points : ℕ) :
    Except String (List ℚ × List ℝ × List ℝ) :=
  let params := linspace param_range.1 param_range.2 n_points
  match scanPoints sw data errors model_func params with
  | .error e => .error e
  | .ok vals => .ok (params, vals.map Prod.fst, vals.map Prod.snd)

/-- The 2-D grid of `scan_2d` in the order the nested loops of scanner.py
lines 87-92 visit it: one inner list per outer index `i` (a column of the
meshgrid), containing the points `(param1[i], param2[j])` for `j` in
order.  Note `model_func(grid1[j, i], grid2[j, i]) = model_func(param1[i],
param2[j])` with numpy's default `'xy'` meshgrid indexing. -/
def meshColumns (param1 param2 : List ℚ) : List (List (ℚ × ℚ)) :=
  param1.map (fun x => param2.map (fun y => (x, y)))

/-- The nested loops of `scan_2d`: the outer `i` loop over columns, each
running the inner `j` loop (`scanPoints`); the first exception anywhere
aborts both loops. -/
noncomputable def scan2dColumns (sw : BesemerSwitch ℝ) (data : List ℚ)
    (errors : Option (List ℚ)) (f : ℚ → ℚ → Except String (List ℚ)) :
    List (List (ℚ × ℚ)) → Except String (List (List (ℝ × ℝ)))
  | [] => .ok []
  | c :: cs =>
      match scanPoints sw data errors (fun pr => f pr.1 pr.2) c with
      | .error e => .error e
      | .ok v =>
          match scan2dColumns sw data errors f cs with
          | .error e => .error e
          | .ok rest => .ok (v :: rest)

/-- The four fields returned by `scan_2d`: the two coordinate meshgrids and
the switch/resonance value fields, each a list of rows. -/
structure Grid2DResult where
  grid1 : List (List ℚ)
  grid2 : List (List ℚ)
  switches : List (List ℝ)
  resonances : List (List ℝ)

/-- The scanner's cached state (`self.grid_points`, `self.switch_values`,
`self.resonance_values` of scanner.py lines 36-38 and 97-100): `none`
before any successful `scan_2d`, otherwise the grids and value fields of
the last successful scan. -/
def ScanCache : Type :=
  Option ((List (List ℚ) × List (List ℚ)) × List (List ℝ) × List (List ℝ))

/-- `LatencyFreeScanner.scan_2d` (scanner.py, lines 64-102).  The meshgrid
uses numpy's default `'xy'` indexing, so all four returned fields have
`n_points.2` rows of length `n_points.1`; entry `[j][i]` corresponds to
the parameter pair `(param1[i], param2[j])`.  The cache assignments
(lines 97-100) are the last statements before the return, so a raised
exception propagates with the cache unchanged — this is mirrored by the
error value carrying the state at the moment the exception is raised. -/
noncomputable def scan_2d (sw : BesemerSwitch ℝ) (data : List ℚ)
    (errors : Option (List ℚ)) (model_func : ℚ → ℚ → Except String (List ℚ))
    (param1_range param2_range : ℚ × ℚ) (n_points : ℕ × ℕ) (st : ScanCache) :
    Except (String × ScanCache) (ScanCache × Grid2DResult) :=
  let param1 := linspace param1_range.1 param1_range.2 n_points.1
  let param2 := linspace param2_range.1 param2_range.2 n_points.2
  let grid1 := param2.map (fun _ => param1)
  let grid2 := param2.map (fun y => List.replicate param1.length y)
  match scan2dColumns sw data errors model_func (meshColumns param1 param2) with
  | .error e => .error (e, st)
  | .ok colVals =>
      let switches := (List.range param2.length).map
        (fun j => colVals.map (fun c => (c.getD j (0, 0)).1))
      let resonances := (List.range param2.length).map
        (fun j => colVals.map (fun c => (c.getD j (0, 0)).2))
      .ok (some ((grid1, grid2), switches, resonances),
        ⟨grid1, grid2, switches, resonances⟩)

/-- numpy boolean-mask selection `grid[switch_values == 1]` as used in
`find_manifold` (scanner.py, lines 114-119): flatten both 2-D arrays in
row-major order, keep the grid entries whose switch value equals 1.
Generic in the switch-value type `V` (`ℝ` in the scanner pipeline). -/
def maskSelect {V : Type} [DecidableEq V] [One V]
    (grid : List (List ℚ)) (switchValues : List (List V)) : List ℚ :=
  (grid.flatten.zip switchValues.flatten).filterMap
    (fun xv => if xv.2 = 1 then some xv.1 else none)

/-- The scanner cache generalised over the switch-value type `V`, so the
manifold analysis can be stated for any field of 0/1 values. -/
def CacheOf (V : Type) : Type :=
  Option ((List (List ℚ) × List (List ℚ)) × List (List V) × List (List V))

/-- `LatencyFreeScanner.find_manifold` (scanner.py, lines 104-121): raises
if no scan was run, otherwise returns the coordinates of all grid points
with switch value 1. -/
def find_manifold {V : Type} [DecidableEq V] [One V] (cache : CacheOf V) :
    Except String (List ℚ × List ℚ) :=
  match cache with
  | none => .error "run scan_2d first"
  | some ((grid1, grid2), switchValues, _) =>
      .ok (maskSelect grid1 switchValues, maskSelect grid2 switchValues)

/-- The mean of a list of rationals (`np.mean`). -/
def listMean (l : List ℚ) : ℚ := l.sum / l.length

/-- The population standard deviation of a list of rationals (`np.std`):
the square root of the mean squared deviation from the mean. -/
noncomputable def listStd (l : List ℚ) : ℝ :=
  Real.sqrt (((l.map (fun x => (x - listMean l) ^ 2)).sum / l.length : ℚ))

/-- The dictionary returned by `analyze_geometry` (scanner.py, lines
139-151): the counts and fraction are always present; the four statistics
`param1_mean, param1_std, param2_mean, param2_std` are present exactly when
the manifold is non-empty. -/
structure GeometryResult where
  n_resonant_points : ℕ
  total_points : ℕ
  resonance_fraction : ℚ
  manifold_size : ℕ
  stats : Option (ℚ × ℝ × ℚ × ℝ)

/-- `LatencyFreeScanner.analyze_geometry` (scanner.py, lines 123-152):
raises only when no scan was run; otherwise returns counts, fraction and —
only for a non-empty manifold — the centroid and per-axis standard
deviation.  An all-zero switch field yields a normal result whose `stats`
field is absent. -/
noncomputable def analyze_geometry {V : Type} [DecidableEq V] [One V]
    (cache : CacheOf V) : Except String GeometryResult :=
  match cache with
  | none => .error "run scan_2d first"
  | some ((grid1, grid2), switchValues, _) =>
      let n_resonant := switchValues.flatten.countP (fun x => decide (x = 1))
      let total := switchValues.flatten.length
      let manifold1 := maskSelect grid1 switchValues
      let manifold2 := maskSelect grid2 switchValues
      .ok { n_resonant_points := n_resonant
            total_points := total
            resonance_fraction := (n_resonant : ℚ) / (total : ℚ)
            manifold_size := manifold1.length
            stats :=
              if 0 < manifold1.length then
                some (listMean manifold1, listStd manifold1,
                  listMean manifold2, listStd manifold2)
              else none }

end LcdmMcmc

namespace LcdmMcmc

/-! ## Helper lemmas (shared, not tied to a single claim) -/

/-- `linspace` always returns exactly `n` points. -/
theorem linspace_length (lo hi : ℚ) (n : ℕ) : (linspace lo hi n).length = n := by
  rw [linspace, List.length_map, List.length_range]

/-- A sum of elementwise squares over a linearly ordered field is
non-negative. -/
theorem sum_map_sq_nonneg {K : Type} [LinearOrderedField K] (l : List K) :
    0 ≤ (l.map (fun x => x ^ 2)).sum := by
  induction l with
  | nil => simp
  | cons x xs ih =>
      simp only [List.map_cons, List.sum_cons]
      exact add_nonneg (sq_nonneg x) ih

/-- Whenever `compute_chi_squared` succeeds, its value is a sum of squares
and hence non-negative. -/
theorem compute_chi_squared_nonneg {K : Type} [LinearOrderedField K]
    [Inhabited K] (data model : List K) (errors : Option (List K)) (q : K)
    (h : compute_chi_squared data model errors = .ok q) : 0 ≤ q := by
  unfold compute_chi_squared at h
  split at h
  · simp at h
  · split at h
    · simp only [Except.ok.injEq] at h
      exact h ▸ sum_map_sq_nonneg _
    · split at h
      · simp at h
      · simp only [Except.ok.injEq] at h
        exact h ▸ sum_map_sq_nonneg _

/-- If `scanPoints` succeeds, every listed point evaluated successfully to
the corresponding output value. -/
theorem scanPoints_ok_forall₂ {α : Type} (sw : BesemerSwitch ℝ)
    (data : List ℚ) (errors : Option (List ℚ))
    (f : α → Except String (List ℚ)) (l : List α) (v : List (ℝ × ℝ))
    (h : scanPoints sw data errors f l = .ok v) :
    List.Forall₂ (fun p y => pointEval sw data errors f p = .ok y) l v := by
  induction l generalizing v with
  | nil =>
      unfold scanPoints at h
      simp only [Except.ok.injEq] at h
      subst h
      exact List.Forall₂.nil
  | cons p ps ih =>
      unfold scanPoints at h
      split at h
      · simp at h
      · rename_i v₀ hpe
        split at h
        · simp at h
        · rename_i rest hrest
          simp only [Except.ok.injEq] at h
          subst h
          exact List.Forall₂.cons hpe (ih _ hrest)

/-- If every point of the list evaluates successfully, `scanPoints`
succeeds. -/
theorem scanPoints_ok_of_forall {α : Type} (sw : BesemerSwitch ℝ)
    (data : List ℚ) (errors : Option (List ℚ))
    (f : α → Except String (List ℚ)) (l : List α)
    (h : ∀ p ∈ l, ∃ y, pointEval sw data errors f p = .ok y) :
    ∃ v, scanPoints sw data errors f l = .ok v := by
  induction l with
  | nil => exact ⟨[], rfl⟩
  | cons p ps ih =>
      obtain ⟨y, hy⟩ := h p (List.mem_cons_self p ps)
      obtain ⟨v, hv⟩ := ih (fun z hz => h z (List.mem_cons_of_mem _ hz))
      exact ⟨y :: v, by rw [scanPoints, hy, hv]⟩

/-- First-failure behaviour of the point loop: if all points before `p`
evaluate successfully and the evaluation of `p` raises `e`, the whole loop
raises `e` — whatever comes after `p` is never evaluated. -/
theorem scanPoints_error_append {α : Type} (sw : BesemerSwitch ℝ)
    (data : List ℚ) (errors : Option (List ℚ))
    (f : α → Except String (List ℚ)) (l₁ : List α) (p : α) (l₂ : List α)
    (e : String)
    (hok : ∀ x ∈ l₁, ∃ y, pointEval sw data errors f x = .ok y)
    (hfail : pointEval sw data errors f p = .error e) :
    scanPoints sw data errors f (l₁ ++ p :: l₂) = .error e := by
  induction l₁ with
  | nil => rw [List.nil_append, scanPoints, hfail]
  | cons x xs ih =>
      obtain ⟨y, hy⟩ := hok x (List.mem_cons_self x xs)
      have ih' := ih (fun z hz => hok z (List.mem_cons_of_mem _ hz))
      rw [List.cons_append, scanPoints, hy, ih']

/-- A failing model function makes the point evaluation fail with the same
error (the model call is the first step of the loop body). -/
theorem pointEval_error_of_model {α : Type} (sw : BesemerSwitch ℝ)
    (data : List ℚ) (errors : Option (List ℚ))
    (f : α → Except String (List ℚ)) (p : α) (e : String)
    (h : f p = .error e) : pointEval sw data errors f p = .error e := by
  rw [pointEval, h]

/-- If the outer column loop of `scan_2d` succeeds, every column ran
through `scanPoints` successfully with the corresponding output column. -/
theorem scan2dColumns_ok_forall₂ (sw : BesemerSwitch ℝ) (data : List ℚ)
    (errors : Option (List ℚ)) (f : ℚ → ℚ → Except String (List ℚ))
    (cols : List (List (ℚ × ℚ))) (colVals : List (List (ℝ × ℝ)))
    (h : scan2dColumns sw data errors f cols = .ok colVals) :
    List.Forall₂
      (fun c v => scanPoints sw data errors (fun pr => f pr.1 pr.2) c = .ok v)
      cols colVals := by
  induction cols generalizing colVals with
  | nil =>
      unfold scan2dColumns at h
      simp only [Except.ok.injEq] at h
      subst h
      exact List.Forall₂.nil
  | cons c cs ih =>
      unfold scan2dColumns at h
      split at h
      · simp at h
      · rename_i v₀ hc
        split at h
        · simp at h
        · rename_i rest hrest
          simp only [Except.ok.injEq] at h
          subst h
          exact List.Forall₂.cons hc (ih _ hrest)

/-- First-failure behaviour of the outer column loop: if every column
before the failing one succeeds and within the failing column every point
before `p` succeeds while `p` raises `e`, the whole nested loop raises
`e`. -/
theorem scan2dColumns_error_append (sw : BesemerSwitch ℝ) (data : List ℚ)
    (errors : Option (List ℚ)) (f : ℚ → ℚ → Except String (List ℚ))
    (cols₁ : List (List (ℚ × ℚ))) (c₁ : List (ℚ × ℚ)) (p : ℚ × ℚ)
    (c₂ : List (ℚ × ℚ)) (cols₂ : List (List (ℚ × ℚ))) (e : String)
    (hcols : ∀ c ∈ cols₁,
      ∃ v, scanPoints sw data errors (fun pr => f pr.1 pr.2) c = .ok v)
    (hok : ∀ x ∈ c₁,
      ∃ y, pointEval sw data errors (fun pr => f pr.1 pr.2) x = .ok y)
    (hfail : pointEval sw data errors (fun pr => f pr.1 pr.2) p = .error e) :
    scan2dColumns sw data errors f (cols₁ ++ (c₁ ++ p :: c₂) :: cols₂) =
      .error e := by
  induction cols₁ with
  | nil =>
      rw [List.nil_append, scan2dColumns,
        scanPoints_error_append sw data errors _ c₁ p c₂ e hok hfail]
  | cons c cs ih =>
      obtain ⟨v, hv⟩ := hcols c (List.mem_cons_self c cs)
      have ih' := ih (fun z hz => hcols z (List.mem_cons_of_mem _ hz))
      rw [List.cons_append, scan2dColumns, hv, ih']

end LcdmMcmc

namespace LcdmMcmc

/-! ## Claims about the residual metric (C4, C9) -/

/-- C4 as stated fails: numpy broadcasting silently stretches a length-1
operand.  With `data = [1, 2, 3]` and `model = [5]` the lengths differ
(3 ≠ 1), yet `compute_chi_squared` returns the number 29 and
`compute_residual_norm` returns `√29` — no error is raised. -/
theorem chi_squared_broadcasts_length_one_model :
    ([1, 2, 3] : List ℚ).length ≠ ([5] : List ℚ).length ∧
      compute_chi_squared (K := ℚ) [1, 2, 3] [5] none = .ok 29 ∧
      compute_residual_norm [1, 2, 3] [5] none = .ok (Real.sqrt ((29 : ℚ) : ℝ)) := by
  have hchi : compute_chi_squared (K := ℚ) [1, 2, 3] [5] none = .ok 29 := by
    rw [compute_chi_squared, broadcast₂]
    norm_num
  refine ⟨by norm_num, hchi, ?_⟩
  rw [compute_residual_norm, hchi]
  rfl

/-- C4 (amended): the computation fails fast on a length mismatch unless
one of the two vectors has length 1 (in which case numpy broadcasting
silently stretches it and a number is returned): whenever the data and
model lengths differ and neither is 1, both `compute_chi_squared` and
`compute_residual_norm` fail with the broadcast error, for every choice of
the optional uncertainty vector. -/
theorem chi_squared_errors_on_nonbroadcastable_lengths
    (data model : List ℚ) (errors : Option (List ℚ))
    (hne : data.length ≠ model.length)
    (hd : data.length ≠ 1) (hm : model.length ≠ 1) :
    compute_chi_squared data model errors = .error broadcastError ∧
      compute_residual_norm data model errors = .error broadcastError := by
  have hb : broadcast₂ (· - ·) data model = .error broadcastError := by
    rw [broadcast₂, if_neg hne, if_neg hm, if_neg hd]
  have hchi : compute_chi_squared data model errors = .error broadcastError := by
    rw [compute_chi_squared, hb]
  refine ⟨hchi, ?_⟩
  rw [compute_residual_norm, hchi]
  rfl

/-- Witness for the amended C4 with `data = [1, 2]`, `model = [3, 4, 5]`. -/
theorem chi_squared_errors_on_nonbroadcastable_lengths_witness :
    compute_chi_squared (K := ℚ) [1, 2] [3, 4, 5] none = .error broadcastError ∧
      compute_residual_norm [1, 2] [3, 4, 5] none = .error broadcastError :=
  chi_squared_errors_on_nonbroadcastable_lengths [1, 2] [3, 4, 5] none
    (by norm_num) (by norm_num) (by norm_num)

/-- C9: whenever `compute_chi_squared` succeeds with value `q`,
`compute_residual_norm` on the same inputs succeeds with value `√q`, and
that value squared is exactly `q`: the norm and its chi-squared companion
are algebraically consistent (exactly, in real arithmetic). -/
theorem residual_norm_sq_eq_chi_squared
    (data model : List ℚ) (errors : Option (List ℚ)) (q : ℚ)
    (h : compute_chi_squared data model errors = .ok q) :
    compute_residual_norm data model errors = .ok (Real.sqrt (q : ℝ)) ∧
      Real.sqrt ((q : ℚ) : ℝ) ^ 2 = ((q : ℚ) : ℝ) := by
  constructor
  · rw [compute_residual_norm, h]
    rfl
  · exact Real.sq_sqrt
      (by exact_mod_cast compute_chi_squared_nonneg data model errors q h)

/-- Witness for C9 with `data = [3]`, `model = [1]`, no uncertainties:
the chi-squared is 4 and the norm is `√4`. -/
theorem residual_norm_sq_eq_chi_squared_witness :
    compute_chi_squared (K := ℚ) [3] [1] none = .ok 4 ∧
      compute_residual_norm [3] [1] none = .ok (Real.sqrt ((4 : ℚ) : ℝ)) ∧
      Real.sqrt ((4 : ℚ) : ℝ) ^ 2 = ((4 : ℚ) : ℝ) := by
  have hchi : compute_chi_squared (K := ℚ) [3] [1] none = .ok 4 := by
    rw [compute_chi_squared, broadcast₂]
    norm_num
  have h := residual_norm_sq_eq_chi_squared [3] [1] none 4 hchi
  exact ⟨hchi, h.1, h.2⟩

/-! ## Claims about the scanner (C2, C8) -/

/-- C2 (amended): `scan_1d(range, n)` returns three parallel sequences of
length exactly `n`.  `scan_2d(rangeA, rangeB, (nA, nB))` returns its four
fields (two coordinate meshgrids, switch field, resonance field) with
shape `nB × nA` — `nB` rows of length `nA`, the transpose of the claimed
`nA × nB`, because `np.meshgrid` defaults to `'xy'` indexing — and all
four fields are indexed consistently with row = *second* axis and
column = *first* axis: entry `[j][i]` of the value fields is the
evaluation at `(param1[i], param2[j])`, which is exactly
`(grid1[j][i], grid2[j][i])`. -/
theorem scan_shapes_and_alignment :
    (∀ (sw : BesemerSwitch ℝ) (data : List ℚ) (errors : Option (List ℚ))
        (f : ℚ → Except String (List ℚ)) (param_range : ℚ × ℚ) (n : ℕ)
        (res : List ℚ × List ℝ × List ℝ),
      scan_1d sw data errors f param_range n = .ok res →
      res.1.length = n ∧ res.2.1.length = n ∧ res.2.2.length = n) ∧
    (∀ (sw : BesemerSwitch ℝ) (data : List ℚ) (errors : Option (List ℚ))
        (f : ℚ → ℚ → Except String (List ℚ))
        (param1_range param2_range : ℚ × ℚ) (n_points : ℕ × ℕ)
        (st : ScanCache) (st' : ScanCache) (g : Grid2DResult),
      scan_2d sw data errors f param1_range param2_range n_points st =
        .ok (st', g) →
      (g.grid1.length = n_points.2 ∧ ∀ row ∈ g.grid1, row.length = n_points.1) ∧
      (g.grid2.length = n_points.2 ∧ ∀ row ∈ g.grid2, row.length = n_points.1) ∧
      (g.switches.length = n_points.2 ∧
        ∀ row ∈ g.switches, row.length = n_points.1) ∧
      (g.resonances.length = n_points.2 ∧
        ∀ row ∈ g.resonances, row.length = n_points.1) ∧
      (∀ j, j < n_points.2 → ∀ i, i < n_points.1 →
        (g.grid1.getD j []).getD i 0 =
          (linspace param1_range.1 param1_range.2 n_points.1).getD i 0 ∧
        (g.grid2.getD j []).getD i 0 =
          (linspace param2_range.1 param2_range.2 n_points.2).getD j 0 ∧
        pointEval sw data errors (fun pr : ℚ × ℚ => f pr.1 pr.2)
            ((g.grid1.getD j []).getD i 0, (g.grid2.getD j []).getD i 0) =
          .ok ((g.switches.getD j []).getD i 0,
            (g.resonances.getD j []).getD i 0))) := by
  constructor
  · intro sw data errors f param_range n res h
    simp only [scan_1d] at h
    split at h
    · simp at h
    · rename_i vals hvals
      simp only [Except.ok.injEq] at h
      subst h
      have hlen : vals.length = n := by
        rw [← (scanPoints_ok_forall₂ sw data errors f _ vals hvals).length_eq,
          linspace_length]
      refine ⟨linspace_length _ _ _, ?_, ?_⟩ <;> simp [hlen]
  · intro sw data errors f r1 r2 np st st' g h
    simp only [scan_2d] at h
    split at h
    · simp at h
    · rename_i colVals hcols
      simp only [Except.ok.injEq, Prod.mk.injEq] at h
      obtain ⟨-, hg⟩ := h
      subst hg
      have hF2 := scan2dColumns_ok_forall₂ sw data errors f _ colVals hcols
      have hlenP1 : (linspace r1.1 r1.2 np.1).length = np.1 :=
        linspace_length _ _ _
      have hlenP2 : (linspace r2.1 r2.2 np.2).length = np.2 :=
        linspace_length _ _ _
      have hcolslen :
          (meshColumns (linspace r1.1 r1.2 np.1) (linspace r2.1 r2.2 np.2)).length
            = np.1 := by
        simp [meshColumns, hlenP1]
      have hcvlen : colVals.length = np.1 := by
        rw [← hF2.length_eq, hcolslen]
      refine ⟨⟨by simp [hlenP2], ?_⟩, ⟨by simp [hlenP2], ?_⟩,
        ⟨by simp [hlenP2], ?_⟩, ⟨by simp [hlenP2], ?_⟩, ?_⟩
      · intro row hrow
        obtain ⟨y, -, rfl⟩ := List.mem_map.mp hrow
        exact hlenP1
      · intro row hrow
        obtain ⟨y, -, rfl⟩ := List.mem_map.mp hrow
        simp [hlenP1]
      · intro row hrow
        obtain ⟨j, -, rfl⟩ := List.mem_map.mp hrow
        simp [hcvlen]
      · intro row hrow
        obtain ⟨j, -, rfl⟩ := List.mem_map.mp hrow
        simp [hcvlen]
      · intro j hj i hi
        have hiP1 : i < (linspace r1.1 r1.2 np.1).length := by rw [hlenP1]; exact hi
        have hjP2 : j < (linspace r2.1 r2.2 np.2).length := by rw [hlenP2]; exact hj
        have hicv : i < colVals.length := by rw [hcvlen]; exact hi
        have hicols : i <
            (meshColumns (linspace r1.1 r1.2 np.1) (linspace r2.1 r2.2 np.2)).length := by
          rw [hcolslen]; exact hi
        -- the i-th column evaluated successfully to the i-th value column
        obtain ⟨-, hRi⟩ := List.forall₂_iff_get.mp hF2
        have hcol := hRi i hicols hicv
        simp only [List.get_eq_getElem] at hcol
        rw [show (meshColumns (linspace r1.1 r1.2 np.1)
            (linspace r2.1 r2.2 np.2))[i] =
          (linspace r2.1 r2.2 np.2).map
            (fun y => ((linspace r1.1 r1.2 np.1)[i], y)) from by
            simp [meshColumns]] at hcol
        have hF2i := scanPoints_ok_forall₂ sw data errors
          (fun pr : ℚ × ℚ => f pr.1 pr.2) _ _ hcol
        have hjcv : j < colVals[i].length := by
          rw [← hF2i.length_eq]; simpa [hlenP2] using hj
        obtain ⟨-, hRj⟩ := List.forall₂_iff_get.mp hF2i
        have hpt := hRj j (by simpa [hlenP2] using hj) hjcv
        simp only [List.get_eq_getElem, List.getElem_map] at hpt
        -- rewrite all getD accessors into getElem form
        have hjmap1 : j < (List.map (fun _ => linspace r1.1 r1.2 np.1)
            (linspace r2.1 r2.2 np.2)).length := by
          simpa [hlenP2] using hj
        have hg1 : ((List.map (fun _ => linspace r1.1 r1.2 np.1)
            (linspace r2.1 r2.2 np.2)).getD j []).getD i 0 =
            (linspace r1.1 r1.2 np.1).getD i 0 := by
          rw [List.getD_eq_getElem _ [] hjmap1, List.getElem_map]
        have hjmap2 : j < (List.map (fun y => List.replicate
            (linspace r1.1 r1.2 np.1).length y)
            (linspace r2.1 r2.2 np.2)).length := by
          simpa [hlenP2] using hj
        have hg2 : ((List.map (fun y => List.replicate
            (linspace r1.1 r1.2 np.1).length y)
            (linspace r2.1 r2.2 np.2)).getD j []).getD i 0 =
            (linspace r2.1 r2.2 np.2).getD j 0 := by
          rw [List.getD_eq_getElem _ [] hjmap2, List.getElem_map,
            List.getD_eq_getElem _ 0 (by simpa [hlenP1] using hi),
            List.getD_eq_getElem _ 0 hjP2, List.getElem_replicate]
        refine ⟨hg1, hg2, ?_⟩
        rw [hg1, hg2]
        have hjrange : j < (List.map
            (fun j => List.map (fun c => (c.getD j (0, 0)).1) colVals)
            (List.range (linspace r2.1 r2.2 np.2).length)).length := by
          simpa [hlenP2] using hj
        have hsw : ((List.map
            (fun j => List.map (fun c => (c.getD j (0, 0)).1) colVals)
            (List.range (linspace r2.1 r2.2 np.2).length)).getD j []).getD i 0 =
            (colVals[i][j]).1 := by
          rw [List.getD_eq_getElem _ [] hjrange]
          simp only [List.getElem_map, List.getElem_range]
          rw [List.getD_eq_getElem _ 0 (by simpa [hcvlen] using hi),
            List.getElem_map, List.getD_eq_getElem _ (0, 0) hjcv]
        have hjrange2 : j < (List.map
            (fun j => List.map (fun c => (c.getD j (0, 0)).2) colVals)
            (List.range (linspace r2.1 r2.2 np.2).length)).length := by
          simpa [hlenP2] using hj
        have hrz : ((List.map
            (fun j => List.map (fun c => (c.getD j (0, 0)).2) colVals)
            (List.range (linspace r2.1 r2.2 np.2).length)).getD j []).getD i 0 =
            (colVals[i][j]).2 := by
          rw [List.getD_eq_getElem _ [] hjrange2]
          simp only [List.getElem_map, List.getElem_range]
          rw [List.getD_eq_getElem _ 0 (by simpa [hcvlen] using hi),
            List.getElem_map, List.getD_eq_getElem _ (0, 0) hjcv]
        rw [hsw, hrz,
          List.getD_eq_getElem (linspace r1.1 r1.2 np.1) 0 hiP1,
          List.getD_eq_getElem (linspace r2.1 r2.2 np.2) 0 hjP2]
        simpa using hpt

/-- Concrete evaluation pieces shared by the C2 counterexample and witness:
a constant model `fun _ _ => .ok [0]` against data `[0]` makes every grid
point evaluate to residual 0, switch value 1 and resonance 296 (with the
switch `(296, 1, 1)`). -/
theorem pointEval_const_model (p : ℚ × ℚ) :
    pointEval ⟨296, 1, 1⟩ [0] none
      (fun pr : ℚ × ℚ => (fun _ _ => (.ok [0] : Except String (List ℚ))) pr.1 pr.2) p =
      .ok (1, 296) := by
  have hchi : compute_chi_squared (K := ℚ) [0] [0] none = .ok 0 := by
    rw [compute_chi_squared, broadcast₂]
    norm_num
  have hnorm : compute_residual_norm [0] [0] none = .ok 0 := by
    rw [compute_residual_norm, hchi]
    simp [Except.map]
  have hcall : BesemerSwitch.call (K := ℝ) ⟨296, 1, 1⟩ 0 = 1 := by
    rw [BesemerSwitch.call, max_eq_right zero_le_one]
    norm_num
  have hres : BesemerSwitch.resonance_strength (K := ℝ) ⟨296, 1, 1⟩ 0 = 296 := by
    rw [BesemerSwitch.resonance_strength, max_eq_right zero_le_one]
    norm_num
  simp only [pointEval, hnorm, hcall, hres]

/-- The same constant-model evaluation for the 1-D scan loop. -/
theorem pointEval_const_model_1d (p : ℚ) :
    pointEval ⟨296, 1, 1⟩ [0] none
      (fun _ => (.ok [0] : Except String (List ℚ))) p = .ok (1, 296) := by
  have hchi : compute_chi_squared (K := ℚ) [0] [0] none = .ok 0 := by
    rw [compute_chi_squared, broadcast₂]
    norm_num
  have hnorm : compute_residual_norm [0] [0] none = .ok 0 := by
    rw [compute_residual_norm, hchi]
    simp [Except.map]
  have hcall : BesemerSwitch.call (K := ℝ) ⟨296, 1, 1⟩ 0 = 1 := by
    rw [BesemerSwitch.call, max_eq_right zero_le_one]
    norm_num
  have hres : BesemerSwitch.resonance_strength (K := ℝ) ⟨296, 1, 1⟩ 0 = 296 := by
    rw [BesemerSwitch.resonance_strength, max_eq_right zero_le_one]
    norm_num
  simp only [pointEval, hnorm, hcall, hres]

/-- Full evaluation of a 3-point 1-D scan with the constant model. -/
theorem scan_1d_example :
    scan_1d ⟨296, 1, 1⟩ [0] none (fun _ => .ok [0]) (0, 1) 3 =
      .ok ([0, 1/2, 1], [1, 1, 1], [296, 296, 296]) := by
  have hl3 : linspace 0 1 3 = [0, 1/2, 1] := by
    simp [linspace, List.range_succ]
    norm_num
  have hsp : scanPoints ⟨296, 1, 1⟩ [0] none
      (fun _ => (.ok [0] : Except String (List ℚ))) ([0, 1/2, 1] : List ℚ) =
      .ok [(1, 296), (1, 296), (1, 296)] := by
    rw [scanPoints, pointEval_const_model_1d 0,
      scanPoints, pointEval_const_model_1d (1/2),
      scanPoints, pointEval_const_model_1d 1, scanPoints]
  simp only [scan_1d]
  rw [hl3, hsp]
  rfl

/-- Full evaluation of a 2×3 2-D scan with the constant model: the
returned fields have 3 rows of length 2 (shape `nB × nA`). -/
theorem scan_2d_example :
    scan_2d ⟨296, 1, 1⟩ [0] none (fun _ _ => .ok [0]) (0, 1) (0, 1) (2, 3) none =
      .ok (some (
          ([[0, 1], [0, 1], [0, 1]], [[0, 0], [1/2, 1/2], [1, 1]]),
          [[1, 1], [1, 1], [1, 1]],
          [[296, 296], [296, 296], [296, 296]]),
        ⟨[[0, 1], [0, 1], [0, 1]], [[0, 0], [1/2, 1/2], [1, 1]],
          [[1, 1], [1, 1], [1, 1]],
          [[296, 296], [296, 296], [296, 296]]⟩) := by
  have hl2 : linspace 0 1 2 = [0, 1] := by
    simp [linspace, List.range_succ]
    norm_num
  have hl3 : linspace 0 1 3 = [0, 1/2, 1] := by
    simp [linspace, List.range_succ]
    norm_num
  have hcol : ∀ x : ℚ, scanPoints ⟨296, 1, 1⟩ [0] none
      (fun pr : ℚ × ℚ => (fun _ _ => (.ok [0] : Except String (List ℚ))) pr.1 pr.2)
      ([(x, 0), (x, 1/2), (x, 1)] : List (ℚ × ℚ)) =
      .ok [(1, 296), (1, 296), (1, 296)] := by
    intro x
    rw [scanPoints, pointEval_const_model (x, 0),
      scanPoints, pointEval_const_model (x, 1/2),
      scanPoints, pointEval_const_model (x, 1), scanPoints]
  have hcols : scan2dColumns ⟨296, 1, 1⟩ [0] none (fun _ _ => .ok [0])
      (meshColumns [0, 1] [0, 1/2, 1]) =
      .ok [[(1, 296), (1, 296), (1, 296)], [(1, 296), (1, 296), (1, 296)]] := by
    rw [show meshColumns [0, 1] [0, 1/2, 1] =
        [[((0 : ℚ), (0 : ℚ)), (0, 1/2), (0, 1)], [(1, 0), (1, 1/2), (1, 1)]] from rfl,
      scan2dColumns, hcol 0, scan2dColumns, hcol 1, scan2dColumns]
  simp only [scan_2d]
  rw [hl2, hl3, hcols]
  simp [List.range_succ, List.replicate]

/-- C2 as stated fails for `scan_2d`: with point counts `(nA, nB) = (2, 3)`
the returned switch field has 3 rows of length 2 — shape `nB × nA`, not
the claimed `nA × nB` — because `np.meshgrid` defaults to `'xy'` indexing
(and likewise for the coordinate and resonance fields). -/
theorem scan_2d_shape_is_transposed :
    match scan_2d ⟨296, 1, 1⟩ [0] none (fun _ _ => .ok [0])
        (0, 1) (0, 1) (2, 3) none with
    | .ok (_, g) =>
        g.switches.length = 3 ∧ g.switches.length ≠ 2 ∧
          (∀ row ∈ g.switches, row.length = 2) ∧
          g.grid1.length = 3 ∧ g.resonances.length = 3
    | .error _ => False := by
  rw [scan_2d_example]
  norm_num

/-- Witness for the amended C2, instantiating both halves at the concrete
scans evaluated above. -/
theorem scan_shapes_and_alignment_witness :
    (([0, 1/2, 1] : List ℚ).length = 3 ∧ ([1, 1, 1] : List ℝ).length = 3 ∧
        ([296, 296, 296] : List ℝ).length = 3) ∧
      ([[1, 1], [1, 1], [1, 1]] : List (List ℝ)).length = 3 ∧
      ∀ row ∈ ([[1, 1], [1, 1], [1, 1]] : List (List ℝ)), row.length = 2 := by
  have h1 := scan_shapes_and_alignment.1 ⟨296, 1, 1⟩ [0] none
    (fun _ => .ok [0]) (0, 1) 3 _ scan_1d_example
  have h2 := scan_shapes_and_alignment.2 ⟨296, 1, 1⟩ [0] none
    (fun _ _ => .ok [0]) (0, 1) (0, 1) (2, 3) none _ _ scan_2d_example
  exact ⟨h1, h2.2.2.1⟩

/-- C8: if the caller-supplied model function fails for a grid point, both
`scan_1d` and `scan_2d` propagate exactly that failure.  The grid is
decomposed as `earlier points ++ failing point :: later points` in the
code's evaluation order; nothing is assumed about the later points (they
are never evaluated), no partial result is returned, and for `scan_2d` the
error carries the scanner's cached state unchanged (`scan_1d` never
touches the cache at all). -/
theorem scan_propagates_model_failure :
    (∀ (sw : BesemerSwitch ℝ) (data : List ℚ) (errors : Option (List ℚ))
        (f : ℚ → Except String (List ℚ)) (param_range : ℚ × ℚ) (n : ℕ)
        (l₁ : List ℚ) (p : ℚ) (l₂ : List ℚ) (e : String),
      linspace param_range.1 param_range.2 n = l₁ ++ p :: l₂ →
      (∀ x ∈ l₁, ∃ y, pointEval sw data errors f x = .ok y) →
      f p = .error e →
      scan_1d sw data errors f param_range n = .error e) ∧
    (∀ (sw : BesemerSwitch ℝ) (data : List ℚ) (errors : Option (List ℚ))
        (f : ℚ → ℚ → Except String (List ℚ))
        (param1_range param2_range : ℚ × ℚ) (n_points : ℕ × ℕ)
        (st : ScanCache) (cols₁ : List (List (ℚ × ℚ))) (c₁ : List (ℚ × ℚ))
        (p : ℚ × ℚ) (c₂ : List (ℚ × ℚ)) (cols₂ : List (List (ℚ × ℚ)))
        (e : String),
      meshColumns (linspace param1_range.1 param1_range.2 n_points.1)
          (linspace param2_range.1 param2_range.2 n_points.2) =
        cols₁ ++ (c₁ ++ p :: c₂) :: cols₂ →
      (∀ c ∈ cols₁,
        ∃ v, scanPoints sw data errors (fun pr => f pr.1 pr.2) c = .ok v) →
      (∀ x ∈ c₁,
        ∃ y, pointEval sw data errors (fun pr => f pr.1 pr.2) x = .ok y) →
      f p.1 p.2 = .error e →
      scan_2d sw data errors f param1_range param2_range n_points st =
        .error (e, st)) := by
  constructor
  · intro sw data errors f param_range n l₁ p l₂ e hgrid hok hfail
    rw [scan_1d, hgrid,
      scanPoints_error_append sw data errors f l₁ p l₂ e hok
        (pointEval_error_of_model sw data errors f p e hfail)]
  · intro sw data errors f r1 r2 np st cols₁ c₁ p c₂ cols₂ e hgrid hcols hok hfail
    rw [scan_2d, hgrid,
      scan2dColumns_error_append sw data errors f cols₁ c₁ p c₂ cols₂ e hcols hok
        (pointEval_error_of_model sw data errors _ p e hfail)]

/-- Witness for C8: a model function that always fails makes `scan_1d` on
a 1-point grid fail with its error, and `scan_2d` on a 1×1 grid fail with
its error while the cache (here: the initial `none`) is unchanged. -/
theorem scan_propagates_model_failure_witness :
    scan_1d ⟨296, 1, 1⟩ [0] none (fun _ => .error "model failure") (0, 1) 1 =
        .error "model failure" ∧
      scan_2d ⟨296, 1, 1⟩ [0] none (fun _ _ => .error "model failure")
          (0, 1) (0, 1) (1, 1) none =
        .error ("model failure", none) := by
  have hl : linspace 0 1 1 = [0] := by
    simp [linspace]
  constructor
  · exact scan_propagates_model_failure.1 ⟨296, 1, 1⟩ [0] none
      (fun _ => .error "model failure") (0, 1) 1 [] 0 [] "model failure"
      (by rw [hl]; rfl) (by simp) rfl
  · exact scan_propagates_model_failure.2 ⟨296, 1, 1⟩ [0] none
      (fun _ _ => .error "model failure") (0, 1) (0, 1) (1, 1) none
      [] [] (0, 0) [] [] "model failure"
      (by rw [meshColumns, hl]; rfl) (by simp) (by simp) rfl

/-! ## Claims about the manifold summarization (C7) -/

/-- C7 as stated fails: on a switch field that is all zeros,
`analyze_geometry` does not fail with a "no resonant points" condition —
it returns a normal summary (counts and fraction zero) that silently omits
the centroid/spread statistics. -/
theorem analyze_geometry_silent_on_empty_manifold :
    match analyze_geometry (V := ℚ)
        (some (([[0, 1], [0, 1]], [[0, 0], [1, 1]]),
          [[0, 0], [0, 0]], [[0, 0], [0, 0]])) with
    | .ok r => r.n_resonant_points = 0 ∧ r.manifold_size = 0 ∧ r.stats = none
    | .error _ => False := by
  simp only [analyze_geometry, maskSelect]
  norm_num

/-- C7 (amended): a switch field with no entry equal to 1 makes
`analyze_geometry` return a normal (non-error) summary with zero resonant
count, zero manifold size, zero fraction and the statistics omitted
(`stats` absent); the only explicit failure of `analyze_geometry` is the
"run scan_2d first" error when no scan was cached. -/
theorem analyze_geometry_omits_stats_on_empty_manifold
    {V : Type} [DecidableEq V] [One V]
    (grid1 grid2 : List (List ℚ)) (switchValues res : List (List V))
    (hzero : ∀ row ∈ switchValues, ∀ x ∈ row, x ≠ 1) :
    analyze_geometry (some ((grid1, grid2), switchValues, res)) =
      .ok { n_resonant_points := 0
            total_points := switchValues.flatten.length
            resonance_fraction := 0
            manifold_size := 0
            stats := none } := by
  have hflat : ∀ x ∈ switchValues.flatten, x ≠ 1 := by
    intro x hx
    obtain ⟨row, hr, hxr⟩ := List.mem_flatten.mp hx
    exact hzero row hr x hxr
  have hcount : switchValues.flatten.countP (fun x => decide (x = 1)) = 0 :=
    List.countP_eq_zero.mpr (fun a ha => by simpa using hflat a ha)
  have hmask : ∀ grid : List (List ℚ), maskSelect grid switchValues = [] := by
    intro grid
    refine List.filterMap_eq_nil_iff.mpr (fun xv hxv => ?_)
    have h2 : xv.2 ∈ switchValues.flatten := (List.of_mem_zip hxv).2
    simp [hflat xv.2 h2]
  simp only [analyze_geometry]
  rw [hcount, hmask grid1, hmask grid2]
  simp

/-- Witness for the amended C7 on a concrete 1×1 all-zero switch field. -/
theorem analyze_geometry_omits_stats_on_empty_manifold_witness :
    analyze_geometry (V := ℚ) (some (([[5]], [[6]]), [[0]], [[7]])) =
      .ok { n_resonant_points := 0
            total_points := 1
            resonance_fraction := 0
            manifold_size := 0
            stats := none } := by
  have h := analyze_geometry_omits_stats_on_empty_manifold (V := ℚ)
    [[5]] [[6]] [[0]] [[7]] (by norm_num)
  simpa using h

/-! ## Claims about the switch (C1, C3, C5, C6, C10) -/

/-- C1 as stated quantifies over *every* switch configuration.  With
`beta = 1, threshold = 1, epsilon = 2` and residual `r = 1/2 > 0` we have
`r ≤ beta/threshold = 1`, yet the code computes
`beta / max(r, epsilon) = 1/2 < threshold` and returns `0`, not `1`. -/
theorem call_not_iff_le_beta_div_threshold :
    (0 : ℚ) < 1/2 ∧ (1/2 : ℚ) ≤ (1 : ℚ) / 1 ∧
      BesemerSwitch.call ⟨1, 1, 2⟩ (1/2 : ℚ) = 0 := by
  refine ⟨by norm_num, by norm_num, ?_⟩
  unfold BesemerSwitch.call
  norm_num

/-- C1 (amended): for a configuration with `0 < threshold` and
`epsilon ≤ beta/threshold`, the switch decision `BesemerSwitch.__call__(r)`
returns 1 exactly when `r ≤ beta/threshold`, for every residual `r > 0`. -/
theorem call_eq_one_iff_le_beta_div_threshold
    {K : Type} [LinearOrderedField K] (sw : BesemerSwitch K) (r : K)
    (hT : 0 < sw.threshold)
    (hfloor : sw.epsilon ≤ sw.beta / sw.threshold) (hr : 0 < r) :
    sw.call r = 1 ↔ r ≤ sw.beta / sw.threshold := by
  unfold BesemerSwitch.call
  have hmax : 0 < max r sw.epsilon := lt_max_of_lt_left hr
  have hstep : sw.beta / max r sw.epsilon ≥ sw.threshold ↔
      max r sw.epsilon ≤ sw.beta / sw.threshold := by
    rw [ge_iff_le, le_div_iff₀ hmax, le_div_iff₀ hT, mul_comm]
  constructor
  · intro h1
    by_cases hcond : sw.beta / max r sw.epsilon ≥ sw.threshold
    · have := hstep.mp hcond
      exact le_trans (le_max_left _ _) this
    · simp [hcond] at h1
  · intro hle
    have : max r sw.epsilon ≤ sw.beta / sw.threshold := max_le hle hfloor
    rw [if_pos (hstep.mpr this)]

/-- Witness for the amended C1 at the concrete configuration
`(beta, threshold, epsilon) = (296, 1, 10⁻¹⁰)` and residual `r = 2`. -/
theorem call_eq_one_iff_le_beta_div_threshold_witness :
    BesemerSwitch.call (K := ℚ) ⟨296, 1, 1/10^10⟩ 2 = 1 ↔
      (2 : ℚ) ≤ 296 / 1 :=
  call_eq_one_iff_le_beta_div_threshold ⟨296, 1, 1/10^10⟩ 2
    (by norm_num) (by norm_num) (by norm_num)

/-- C3 as stated fails below the epsilon floor: with the default
configuration `(296, 1, 10⁻¹⁰)` and residuals
`0 < r₁ = 1/(4·10¹⁰) < r₂ = 1/(2·10¹⁰)`, both residuals are clamped to
`epsilon`, so the two resonance strengths are equal, not strictly
decreasing. -/
theorem resonance_strength_not_strictly_decreasing :
    (0 : ℚ) < 1/40000000000 ∧ (1/40000000000 : ℚ) < 1/20000000000 ∧
      BesemerSwitch.resonance_strength (K := ℚ) ⟨296, 1, 1/10^10⟩ (1/40000000000) =
        BesemerSwitch.resonance_strength (K := ℚ) ⟨296, 1, 1/10^10⟩ (1/20000000000) := by
  refine ⟨by norm_num, by norm_num, ?_⟩
  unfold BesemerSwitch.resonance_strength
  norm_num

/-- C3 (amended): with `0 < beta`, the resonance strength is strictly
decreasing on residuals at or above the epsilon floor: for
`0 < r₁`, `epsilon ≤ r₁` and `r₁ < r₂`,
`resonance_strength(r₂) < resonance_strength(r₁)`. -/
theorem resonance_strength_strictAnti_above_floor
    {K : Type} [LinearOrderedField K] (sw : BesemerSwitch K) (r₁ r₂ : K)
    (hβ : 0 < sw.beta) (hr₁ : 0 < r₁) (hfloor : sw.epsilon ≤ r₁)
    (h12 : r₁ < r₂) :
    sw.resonance_strength r₂ < sw.resonance_strength r₁ := by
  unfold BesemerSwitch.resonance_strength
  rw [max_eq_left hfloor, max_eq_left (hfloor.trans h12.le)]
  exact div_lt_div_of_pos_left hβ hr₁ h12

/-- Witness for the amended C3 at the default configuration with
residuals `r₁ = 1` and `r₂ = 2`. -/
theorem resonance_strength_strictAnti_above_floor_witness :
    BesemerSwitch.resonance_strength (K := ℚ) ⟨296, 1, 1/10^10⟩ 2 <
      BesemerSwitch.resonance_strength (K := ℚ) ⟨296, 1, 1/10^10⟩ 1 :=
  resonance_strength_strictAnti_above_floor ⟨296, 1, 1/10^10⟩ 1 2
    (by norm_num) (by norm_num) (by norm_num) (by norm_num)

/-- C5: for every switch configuration with a positive epsilon floor (the
regime in which the rational/real embedding is an exact model of the
floating-point code: the divisor `max(r, epsilon)` is strictly positive,
so no infinity or NaN can arise) and every residual, the switch output is
exactly 0 or 1, and it is 1 exactly when the resonance strength of the
same residual is `≥ threshold` (non-strict at the boundary). -/
theorem call_binary_and_matches_resonance
    {K : Type} [LinearOrderedField K] (sw : BesemerSwitch K) (r : K)
    (_hε : 0 < sw.epsilon) :
    (sw.call r = 0 ∨ sw.call r = 1) ∧
      (sw.call r = 1 ↔ sw.resonance_strength r ≥ sw.threshold) := by
  unfold BesemerSwitch.call BesemerSwitch.resonance_strength
  constructor
  · by_cases h : sw.beta / max r sw.epsilon ≥ sw.threshold
    · right; rw [if_pos h]
    · left; rw [if_neg h]
  · by_cases h : sw.beta / max r sw.epsilon ≥ sw.threshold
    · simp [h]
    · simp [h]

/-- Witness for C5 at the default configuration and residual `r = 3`. -/
theorem call_binary_and_matches_resonance_witness :
    (BesemerSwitch.call (K := ℚ) ⟨296, 1, 1/10^10⟩ 3 = 0 ∨
      BesemerSwitch.call (K := ℚ) ⟨296, 1, 1/10^10⟩ 3 = 1) ∧
      (BesemerSwitch.call (K := ℚ) ⟨296, 1, 1/10^10⟩ 3 = 1 ↔
        BesemerSwitch.resonance_strength (K := ℚ) ⟨296, 1, 1/10^10⟩ 3 ≥ 1) :=
  call_binary_and_matches_resonance ⟨296, 1, 1/10^10⟩ 3 (by norm_num)

/-- C6: for every configuration and every residual `r ≤ epsilon`,
`resonance_strength(r) = beta/epsilon` exactly (the floor saturates the
score instead of letting it diverge). -/
theorem resonance_strength_saturates
    {K : Type} [LinearOrderedField K] (sw : BesemerSwitch K) (r : K)
    (h : r ≤ sw.epsilon) :
    sw.resonance_strength r = sw.beta / sw.epsilon := by
  unfold BesemerSwitch.resonance_strength
  rw [max_eq_right h]

/-- Witness for C6 at the default configuration and residual `r = 10⁻¹²`. -/
theorem resonance_strength_saturates_witness :
    BesemerSwitch.resonance_strength (K := ℚ) ⟨296, 1, 1/10^10⟩ (1/10^12) =
      296 / (1/10^10) :=
  resonance_strength_saturates ⟨296, 1, 1/10^10⟩ (1/10^12) (by norm_num)

/-- C10: for every residual `r ≤ epsilon` — negative residuals included —
the switch treats `r` exactly as if it were `epsilon`: the resonance
strength is `beta/epsilon`, it agrees with the strength at `epsilon`
itself, and the binary decision is 1 iff `beta/epsilon ≥ threshold`.
Both operations are total, so negative residuals are neither rejected
nor replaced by their absolute value. -/
theorem switch_clamps_small_and_negative_residuals
    {K : Type} [LinearOrderedField K] (sw : BesemerSwitch K) (r : K)
    (h : r ≤ sw.epsilon) :
    sw.resonance_strength r = sw.beta / sw.epsilon ∧
      sw.resonance_strength r = sw.resonance_strength sw.epsilon ∧
      sw.call r = sw.call sw.epsilon ∧
      (sw.call r = 1 ↔ sw.beta / sw.epsilon ≥ sw.threshold) := by
  unfold BesemerSwitch.resonance_strength BesemerSwitch.call
  rw [max_eq_right h, max_self]
  refine ⟨rfl, rfl, rfl, ?_⟩
  by_cases hc : sw.beta / sw.epsilon ≥ sw.threshold
  · simp [hc]
  · simp [hc]

/-- Witness for C10 at the default configuration and the negative
residual `r = -5`. -/
theorem switch_clamps_small_and_negative_residuals_witness :
    BesemerSwitch.resonance_strength (K := ℚ) ⟨296, 1, 1/10^10⟩ (-5) =
        296 / (1/10^10) ∧
      BesemerSwitch.resonance_strength (K := ℚ) ⟨296, 1, 1/10^10⟩ (-5) =
        BesemerSwitch.resonance_strength (K := ℚ) ⟨296, 1, 1/10^10⟩ (1/10^10) ∧
      BesemerSwitch.call (K := ℚ) ⟨296, 1, 1/10^10⟩ (-5) =
        BesemerSwitch.call (K := ℚ) ⟨296, 1, 1/10^10⟩ (1/10^10) ∧
      (BesemerSwitch.call (K := ℚ) ⟨296, 1, 1/10^10⟩ (-5) = 1 ↔
        (296 : ℚ) / (1/10^10) ≥ 1) :=
  switch_clamps_small_and_negative_residuals ⟨296, 1, 1/10^10⟩ (-5) (by norm_num)

end LcdmMcmc
